import Mathlib

/-!
Verification of the `chk` DNS-check pipeline (src/chk.go).

We shallowly embed the concurrent per-address enrichment pipeline:
`getIPInfo`, the per-address enricher `lookupIP` (with an explicit
schedule parameter capturing the possible interleavings of its two
goroutines' accesses to the shared `result` record), the address-family
filter, the resolver/validation steps, the result collector, and the
main select loop (progress / cancellation / done).

External effects (DNS lookups, the HTTP transport, JSON decoding, the
OS signal) are modelled as explicit outcome parameters; the functions
below are otherwise transcribed from the Go source.
-/

namespace Chk

/-- Metadata record decoded from the ipinfo.io JSON body
(type `IPInfo` in src/chk.go). -/
structure IPInfo where
  ip : String
  hostname : String
  city : String
  region : String
  country : String
  loc : String
  org : String
deriving Repr, DecidableEq

/-- The per-address result emitted by an enricher
(type `Result` in src/chk.go).  `Error` is the composite error message,
`none` standing for Go's nil error. -/
structure Result where
  IP : String
  PTR : List String
  info : Option IPInfo
  IsIPv6 : Bool
  Error : Option String
deriving Repr, DecidableEq

/-- Outcome of `net.LookupAddr` (the reverse PTR lookup) for one address:
either an ordered list of names or an error message. -/
inductive PtrOutcome where
  | ok : List String → PtrOutcome
  | err : String → PtrOutcome
deriving Repr, DecidableEq

/-- Outcome of the HTTP exchange inside `getIPInfo`: either the transport
failed (request creation or `httpClient.Do`, including context
cancellation and client timeout), or a response arrived carrying a status
code and the outcome of JSON-decoding its body. -/
inductive HttpOutcome where
  | transportError : String → HttpOutcome
  | response : Nat → Except String IPInfo → HttpOutcome
deriving Repr

/-- `getIPInfo` from src/chk.go: returns the transport error if the
request failed, otherwise decodes the body and returns the decode error
or the record.  The status code of the response is never examined. -/
def getIPInfo : HttpOutcome → Except String IPInfo
  | .transportError e => .error e
  | .response _ body => body

/-- The fresh result record `Result{IP: ip, IsIPv6: isIPv6}` built at the
top of `lookupIP`. -/
def initResult (ip : String) (isIPv6 : Bool) : Result :=
  { IP := ip, PTR := [], info := none, IsIPv6 := isIPv6, Error := none }

/-- Body of the first goroutine of `lookupIP` (the `net.LookupAddr`
branch): on failure it overwrites `result.Error`, on success it sets
`result.PTR`. -/
def ptrBody (ptr : PtrOutcome) (r : Result) : Result :=
  match ptr with
  | .ok names => { r with PTR := names }
  | .err e => { r with Error := some ("error looking up PTR records: " ++ e) }

/-- Body of the second goroutine of `lookupIP` (the `getIPInfo` branch).
`readError` is the value of `result.Error` this goroutine observed when
it tested `result.Error != nil`; `r` is the shared record at the moment
of its write. -/
def metaBody (meta : HttpOutcome) (readError : Option String) (r : Result) : Result :=
  match getIPInfo meta with
  | .ok ipInfo => { r with info := some ipInfo }
  | .error e =>
      match readError with
      | some prev => { r with Error := some (prev ++ "; error fetching IP info: " ++ e) }
      | none => { r with Error := some ("error fetching IP info: " ++ e) }

/-- The interleavings of the two goroutines of `lookupIP` with respect to
the shared `result` record: the PTR goroutine performs one write, the
metadata goroutine one read of `result.Error` followed by one write.
* `ptrThenMeta`: the PTR goroutine finishes before the metadata goroutine
  reads;
* `metaThenPtr`: the metadata goroutine finishes before the PTR goroutine
  writes;
* `overlapped`: the metadata goroutine reads `result.Error`, then the PTR
  goroutine writes, then the metadata goroutine writes. -/
inductive Sched where
  | ptrThenMeta
  | metaThenPtr
  | overlapped
deriving Repr, DecidableEq

/-- The value of the shared `result` record after both goroutines of
`lookupIP` have finished, under schedule `s` (src/chk.go lines 96–127). -/
def lookupIPResult (ip : String) (isIPv6 : Bool) (ptr : PtrOutcome)
    (meta : HttpOutcome) : Sched → Result
  | .ptrThenMeta =>
      let r1 := ptrBody ptr (initResult ip isIPv6)
      metaBody meta r1.Error r1
  | .metaThenPtr =>
      let r0 := initResult ip isIPv6
      ptrBody ptr (metaBody meta r0.Error r0)
  | .overlapped =>
      let r0 := initResult ip isIPv6
      metaBody meta r0.Error (ptrBody ptr r0)

/-- `lookupIP` from src/chk.go: after `wgInternal.Wait()` it performs the
single send `resultChan <- result`.  Given the channel contents so far,
it returns the channel contents after this enricher has run. -/
def lookupIP (ip : String) (isIPv6 : Bool) (ptr : PtrOutcome)
    (meta : HttpOutcome) (s : Sched) (chan : List Result) : List Result :=
  chan ++ [lookupIPResult ip isIPv6 ptr meta s]

/-- A resolved address: the string form produced by `ip.String()` together
with its family flag `isIPv6 := ip.To4() == nil` (main, src/chk.go
line 209). -/
structure Addr where
  ip : String
  isIPv6 : Bool
deriving Repr, DecidableEq

/-- The environment an enricher runs against: the outcomes of its two
sub-lookups and the interleaving its two goroutines happen to take. -/
structure EnrichEnv where
  ptr : PtrOutcome
  meta : HttpOutcome
  sched : Sched

/-- The family filter of the fan-out loop (main, src/chk.go line 210):
`(CLI.IPv4 && !isIPv6) || (CLI.IPv6 && isIPv6) || (!CLI.IPv4 && !CLI.IPv6)`. -/
def familySelect (ipv4 ipv6 : Bool) (a : Addr) : Bool :=
  (ipv4 && !a.isIPv6) || (ipv6 && a.isIPv6) || (!ipv4 && !ipv6)

/-- The addresses for which main launches an enricher: those of the
candidate list passing `familySelect`. -/
def selectAddrs (ipv4 ipv6 : Bool) (ips : List Addr) : List Addr :=
  ips.filter (familySelect ipv4 ipv6)

/-- The fan-out loop of main (src/chk.go lines 207–215) followed by the
collector goroutine (lines 222–228): every selected address gets one
`lookupIP` enricher, each of which sends its result on the shared
channel; the collector drains the closed channel into `results`. -/
def launchAll (env : Addr → EnrichEnv) (sel : List Addr) : List Result :=
  sel.foldl
    (fun chan a =>
      lookupIP a.ip a.isIPv6 (env a).ptr (env a).meta (env a).sched chan)
    []

/-- `validateInput` from src/chk.go (lines 157–165), with the outcome of
`net.ParseIP` and of `net.LookupHost` supplied as parameters.  Returns
the validation outcome together with whether `net.LookupHost` was
actually called. -/
def validateInput (parsed : Option Addr)
    (hostLookup : Except String (List String)) :
    Except String Unit × Bool :=
  match parsed with
  | some _ => (.ok (), false)
  | none =>
      match hostLookup with
      | .ok _ => (.ok (), true)
      | .error e => (.error ("invalid domain or IP address: " ++ e), true)

/-- The candidate-address computation of main (src/chk.go lines 189–205):
a literal IP yields the single-element list without calling
`net.LookupIP`; otherwise `net.LookupIP` is consulted and its error is
fatal.  The boolean records whether `net.LookupIP` was called. -/
def resolveIPs (parsed : Option Addr)
    (ipLookup : Except String (List Addr)) :
    Except String (List Addr × Bool) :=
  match parsed with
  | some a => .ok ([a], false)
  | none =>
      match ipLookup with
      | .ok l => .ok ((l, true))
      | .error e => .error e

/-- An event observed by main's select loop (src/chk.go lines 235–250):
a tick of the 500 ms progress ticker, the cancellation of `mainCtx`
(interrupt signal), or the close of `done` (all results collected). -/
inductive Ev where
  | tick
  | cancel
  | done
deriving Repr, DecidableEq

/-- How main's select loop terminated: cancelled without printing, or
completed having printed the given result blocks. -/
inductive LoopExit where
  | cancelled
  | completed : List Result → LoopExit
deriving Repr, DecidableEq

/-- The select loop of main (src/chk.go lines 235–250): on `mainCtx.Done`
it returns having printed nothing; on `done` it prints every collected
result once and returns; on a ticker tick it redraws the progress line
and loops.  `none` models the loop still running when the observed event
list is exhausted. -/
def mainLoop (results : List Result) : List Ev → Option LoopExit
  | [] => none
  | .cancel :: _ => some .cancelled
  | .done :: _ => some (.completed results)
  | .tick :: rest => mainLoop results rest

/-- The result blocks printed by a loop exit: none when cancelled, every
collected result (in collection order, each via one `printResult` call)
when completed. -/
def printedOf : LoopExit → List Result
  | .cancelled => []
  | .completed rs => rs

/-- The first non-tick event the select loop observes, if any. -/
def firstSignal : List Ev → Option Ev
  | [] => none
  | .tick :: rest => firstSignal rest
  | e :: _ => some e

/-- Whether a reverse lookup succeeded. -/
def PtrOutcome.isOkB : PtrOutcome → Bool
  | .ok _ => true
  | .err _ => false

/-- Whether an `Except` value is a success. -/
def exceptOk {ε α : Type} : Except ε α → Bool
  | .ok _ => true
  | .error _ => false

/-- The filter semantics as the spec words them: an address is selected
iff the filter requests its family, or the filter requests neither
family explicitly (meaning both).  Stated independently of the source's
boolean expression, for comparison with `familySelect`. -/
def specFilterSelects (ipv4 ipv6 : Bool) (a : Addr) : Bool :=
  (if a.isIPv6 then ipv6 else ipv4) || (!ipv4 && !ipv6)

/-- The observable outcome of one run of main. -/
structure RunOutcome where
  exitCode : Nat
  printed : List Result
  usedLookupHost : Bool
  usedLookupIP : Bool
  candidates : List Addr
  selected : List Addr
  cancelled : Bool
deriving Repr, DecidableEq

/-- `main` from src/chk.go (lines 167–251): validate the target (exit 1
on failure), compute the candidate addresses (exit 1 on resolution
failure), filter by family, fan out one enricher per selected address,
then run the select loop.  Both the cancellation path (line 239
`return`) and the completion path (line 245 `return`) fall off main
normally, so the process exit status is 0 on both.  `none` models a run
whose select loop never observed a terminating event. -/
def mainRun (parsed : Option Addr)
    (hostLookup : Except String (List String))
    (ipLookup : Except String (List Addr))
    (ipv4 ipv6 : Bool) (env : Addr → EnrichEnv)
    (events : List Ev) : Option RunOutcome :=
  match validateInput parsed hostLookup with
  | (.error _, usedHost) =>
      some { exitCode := 1, printed := [], usedLookupHost := usedHost,
             usedLookupIP := false, candidates := [], selected := [],
             cancelled := false }
  | (.ok _, usedHost) =>
      match resolveIPs parsed ipLookup with
      | .error _ =>
          some { exitCode := 1, printed := [], usedLookupHost := usedHost,
                 usedLookupIP := true, candidates := [], selected := [],
                 cancelled := false }
      | .ok (ips, usedLIP) =>
          match mainLoop (launchAll env (selectAddrs ipv4 ipv6 ips)) events with
          | none => none
          | some .cancelled =>
              some { exitCode := 0, printed := [], usedLookupHost := usedHost,
                     usedLookupIP := usedLIP, candidates := ips,
                     selected := selectAddrs ipv4 ipv6 ips, cancelled := true }
          | some (.completed printed) =>
              some { exitCode := 0, printed := printed,
                     usedLookupHost := usedHost, usedLookupIP := usedLIP,
                     candidates := ips, selected := selectAddrs ipv4 ipv6 ips,
                     cancelled := false }

/-- The result produced by the enricher of address `a` under environment
`env`. -/
def enrichOf (env : Addr → EnrichEnv) (a : Addr) : Result :=
  lookupIPResult a.ip a.isIPv6 (env a).ptr (env a).meta (env a).sched

theorem launchAll_foldl (env : Addr → EnrichEnv) (sel : List Addr)
    (chan : List Result) :
    sel.foldl
        (fun c a =>
          lookupIP a.ip a.isIPv6 (env a).ptr (env a).meta (env a).sched c)
        chan
      = chan ++ sel.map (enrichOf env) := by
  induction sel generalizing chan with
  | nil => simp
  | cons a rest ih =>
      simp only [List.foldl_cons]
      rw [ih]
      simp [lookupIP, enrichOf, List.append_assoc]

theorem launchAll_eq (env : Addr → EnrichEnv) (sel : List Addr) :
    launchAll env sel = sel.map (enrichOf env) := by
  simpa using launchAll_foldl env sel []

theorem lookupIPResult_IP (ip : String) (v6 : Bool) (ptr : PtrOutcome)
    (meta : HttpOutcome) (s : Sched) :
    (lookupIPResult ip v6 ptr meta s).IP = ip := by
  cases s <;> cases ptr <;> rcases meta with e | ⟨st, b⟩ <;>
    first
      | rfl
      | (cases b <;> rfl)

theorem lookupIPResult_IsIPv6 (ip : String) (v6 : Bool) (ptr : PtrOutcome)
    (meta : HttpOutcome) (s : Sched) :
    (lookupIPResult ip v6 ptr meta s).IsIPv6 = v6 := by
  cases s <;> cases ptr <;> rcases meta with e | ⟨st, b⟩ <;>
    first
      | rfl
      | (cases b <;> rfl)

theorem mainLoop_of_firstSignal_cancel (rs : List Result) {events : List Ev}
    (h : firstSignal events = some Ev.cancel) :
    mainLoop rs events = some LoopExit.cancelled := by
  induction events with
  | nil => simp [firstSignal] at h
  | cons e rest ih => cases e <;> simp_all [firstSignal, mainLoop]

theorem mainLoop_of_firstSignal_done (rs : List Result) {events : List Ev}
    (h : firstSignal events = some Ev.done) :
    mainLoop rs events = some (LoopExit.completed rs) := by
  induction events with
  | nil => simp [firstSignal] at h
  | cons e rest ih => cases e <;> simp_all [firstSignal, mainLoop]

theorem mainRun_done_spec (parsed : Option Addr)
    (hostLookup : Except String (List String))
    (ipLookup : Except String (List Addr)) (ipv4 ipv6 : Bool)
    (env : Addr → EnrichEnv) (events : List Ev) (ips : List Addr)
    (uh usedLIP : Bool)
    (hv : validateInput parsed hostLookup = (Except.ok (), uh))
    (hr : resolveIPs parsed ipLookup = Except.ok (ips, usedLIP))
    (hd : firstSignal events = some Ev.done) :
    mainRun parsed hostLookup ipLookup ipv4 ipv6 env events =
      some { exitCode := 0,
             printed := launchAll env (selectAddrs ipv4 ipv6 ips),
             usedLookupHost := uh, usedLookupIP := usedLIP,
             candidates := ips, selected := selectAddrs ipv4 ipv6 ips,
             cancelled := false } := by
  simp [mainRun, hv, hr,
    mainLoop_of_firstSignal_done (launchAll env (selectAddrs ipv4 ipv6 ips)) hd]

theorem mainRun_printed_nil_of_cancel (parsed : Option Addr)
    (hostLookup : Except String (List String))
    (ipLookup : Except String (List Addr)) (ipv4 ipv6 : Bool)
    (env : Addr → EnrichEnv) (events : List Ev) (o : RunOutcome)
    (hc : firstSignal events = some Ev.cancel)
    (h : mainRun parsed hostLookup ipLookup ipv4 ipv6 env events = some o) :
    o.printed = [] := by
  rcases hv : validateInput parsed hostLookup with ⟨ve, uh⟩
  cases ve with
  | error e => simp [mainRun, hv] at h; simp [← h]
  | ok u =>
      cases u
      rcases hr : resolveIPs parsed ipLookup with e | ⟨ips, usedLIP⟩
      · simp [mainRun, hv, hr] at h; simp [← h]
      · rw [mainRun, hv] at h
        simp only [hr] at h
        rw [mainLoop_of_firstSignal_cancel _ hc] at h
        simp at h
        simp [← h]

/-- C1: each `lookupIP` enricher performs exactly one send on the result
channel (never zero, never two), the number of collected results equals
the number of selected addresses when the run is not cancelled, each
address string occurs among the collected results exactly as often as it
was selected, and any prefix collected before a cancellation contains at
most that many results for it. -/
theorem C1_one_result_per_address (env : Addr → EnrichEnv)
    (ipv4 ipv6 : Bool) (ips : List Addr) :
    (∀ (ip : String) (v6 : Bool) (ptr : PtrOutcome) (meta : HttpOutcome)
       (s : Sched) (chan : List Result),
       (lookupIP ip v6 ptr meta s chan).length = chan.length + 1) ∧
    (launchAll env (selectAddrs ipv4 ipv6 ips)).length
      = (selectAddrs ipv4 ipv6 ips).length ∧
    (∀ str : String,
       (launchAll env (selectAddrs ipv4 ipv6 ips)).countP
           (fun r => r.IP == str)
         = (selectAddrs ipv4 ipv6 ips).countP (fun a => a.ip == str)) ∧
    (∀ (str : String) (k : Nat),
       ((launchAll env (selectAddrs ipv4 ipv6 ips)).take k).countP
           (fun r => r.IP == str)
         ≤ (selectAddrs ipv4 ipv6 ips).countP (fun a => a.ip == str)) := by
  have hcount : ∀ str : String,
      (launchAll env (selectAddrs ipv4 ipv6 ips)).countP
          (fun r => r.IP == str)
        = (selectAddrs ipv4 ipv6 ips).countP (fun a => a.ip == str) := by
    intro str
    rw [launchAll_eq, List.countP_map]
    refine List.countP_congr fun a _ => ?_
    simp [Function.comp, enrichOf, lookupIPResult_IP]
  refine ⟨fun ip v6 ptr meta s chan => by simp [lookupIP], ?_, hcount, ?_⟩
  · rw [launchAll_eq]; simp
  · intro str k
    calc ((launchAll env (selectAddrs ipv4 ipv6 ips)).take k).countP
          (fun r => r.IP == str)
        ≤ (launchAll env (selectAddrs ipv4 ipv6 ips)).countP
            (fun r => r.IP == str) := (List.take_sublist _ _).countP_le _
      _ = _ := hcount str

/-- C2: when both sub-lookups fail, the composite error of the enricher
depends on which goroutine finishes first.  If the PTR goroutine writes
before the metadata goroutine reads, both messages are concatenated
(reverse-lookup error first); but if the metadata goroutine finishes
first, the PTR goroutine's later write overwrites the record and the
metadata error is discarded, contradicting the claim that both messages
survive regardless of completion order. -/
theorem C2_composite_error_depends_on_schedule :
    (lookupIPResult "192.0.2.1" false (PtrOutcome.err "no PTR")
        (HttpOutcome.transportError "connection refused")
        Sched.ptrThenMeta).Error
      = some
        "error looking up PTR records: no PTR; error fetching IP info: connection refused"
    ∧
    (lookupIPResult "192.0.2.1" false (PtrOutcome.err "no PTR")
        (HttpOutcome.transportError "connection refused")
        Sched.metaThenPtr).Error
      = some "error looking up PTR records: no PTR" :=
  ⟨rfl, rfl⟩

/-- C3 counterexample: a response with non-2xx status 500 whose body
still decodes is returned by `getIPInfo` as a success, not an error —
the status code is never examined. -/
theorem C3_counterexample :
    getIPInfo (HttpOutcome.response 500 (Except.ok
        { ip := "192.0.2.1", hostname := "", city := "", region := "",
          country := "", loc := "", org := "" }))
      = Except.ok
        { ip := "192.0.2.1", hostname := "", city := "", region := "",
          country := "", loc := "", org := "" } :=
  rfl

/-- C3 (amended): `getIPInfo` returns an error exactly when the HTTP
transport fails or the body fails to decode — the status code is not
consulted; and whenever the metadata fetch errs, the enricher's result
carries no metadata record and a non-nil error. -/
theorem C3_fetch_error_conditions :
    (∀ o : HttpOutcome,
       (∃ e, getIPInfo o = Except.error e) ↔
         ((∃ e, o = HttpOutcome.transportError e) ∨
          ∃ st e, o = HttpOutcome.response st (Except.error e))) ∧
    (∀ (ip : String) (v6 : Bool) (ptr : PtrOutcome) (meta : HttpOutcome)
       (s : Sched) (e : String),
       getIPInfo meta = Except.error e →
         (lookupIPResult ip v6 ptr meta s).info = none ∧
         (lookupIPResult ip v6 ptr meta s).Error ≠ none) := by
  constructor
  · intro o
    cases o with
    | transportError e => simp [getIPInfo]
    | response st b => cases b <;> simp [getIPInfo]
  · intro ip v6 ptr meta s e hm
    cases s <;> cases ptr <;>
      simp [lookupIPResult, ptrBody, metaBody, initResult, hm]

/-- Witness for C3: a transport timeout leaves the metadata record
absent and the error non-nil. -/
theorem C3_fetch_error_conditions_witness :
    (lookupIPResult "203.0.113.5" false (PtrOutcome.ok ["a.example."])
        (HttpOutcome.transportError "timeout") Sched.ptrThenMeta).info = none ∧
    (lookupIPResult "203.0.113.5" false (PtrOutcome.ok ["a.example."])
        (HttpOutcome.transportError "timeout") Sched.ptrThenMeta).Error ≠ none :=
  C3_fetch_error_conditions.2 "203.0.113.5" false (PtrOutcome.ok ["a.example."])
    (HttpOutcome.transportError "timeout") Sched.ptrThenMeta "timeout" rfl

theorem mainRun_literal_eq (a : Addr) (hostLookup : Except String (List String))
    (ipLookup : Except String (List Addr)) (ipv4 ipv6 : Bool)
    (env : Addr → EnrichEnv) (events : List Ev) :
    mainRun (some a) hostLookup ipLookup ipv4 ipv6 env events =
      match mainLoop (launchAll env (selectAddrs ipv4 ipv6 [a])) events with
      | none => none
      | some LoopExit.cancelled =>
          some { exitCode := 0, printed := [], usedLookupHost := false,
                 usedLookupIP := false, candidates := [a],
                 selected := selectAddrs ipv4 ipv6 [a], cancelled := true }
      | some (LoopExit.completed p) =>
          some { exitCode := 0, printed := p, usedLookupHost := false,
                 usedLookupIP := false, candidates := [a],
                 selected := selectAddrs ipv4 ipv6 [a], cancelled := false } :=
  rfl

/-- C4 counterexample: a run interrupted by the user (the select loop
observes `mainCtx.Done` first) returns from main normally, so the
process exit status is 0, not 1: the run below is cancelled yet its exit
code is 0. -/
theorem C4_counterexample :
    mainRun (some { ip := "192.0.2.1", isIPv6 := false })
        (Except.ok []) (Except.ok []) false false
        (fun _ => { ptr := PtrOutcome.ok ["host.example."],
                    meta := HttpOutcome.transportError "cancelled",
                    sched := Sched.ptrThenMeta })
        [Ev.cancel]
      = some { exitCode := 0, printed := [], usedLookupHost := false,
               usedLookupIP := false,
               candidates := [{ ip := "192.0.2.1", isIPv6 := false }],
               selected := [{ ip := "192.0.2.1", isIPv6 := false }],
               cancelled := true } :=
  rfl

/-- C4 (amended): the exit code is 1 exactly on validation or resolution
failure; every run that reaches the select loop — normal completion and
user interrupt alike — exits with code 0. -/
theorem C4_exit_codes (parsed : Option Addr)
    (hostLookup : Except String (List String))
    (ipLookup : Except String (List Addr)) (ipv4 ipv6 : Bool)
    (env : Addr → EnrichEnv) (events : List Ev) (o : RunOutcome)
    (h : mainRun parsed hostLookup ipLookup ipv4 ipv6 env events = some o) :
    o.exitCode =
      (if exceptOk (validateInput parsed hostLookup).1 = false then 1
       else if exceptOk (resolveIPs parsed ipLookup) = false then 1 else 0) := by
  rcases hv : validateInput parsed hostLookup with ⟨ve, uh⟩
  cases ve with
  | error e =>
      rw [mainRun, hv] at h
      simp at h
      simp [hv, exceptOk, ← h]
  | ok u =>
      cases u
      rcases hr : resolveIPs parsed ipLookup with e | ⟨ips, usedLIP⟩
      · rw [mainRun, hv] at h
        simp only [hr] at h
        simp at h
        simp [hv, hr, exceptOk, ← h]
      · rcases hm : mainLoop (launchAll env (selectAddrs ipv4 ipv6 ips)) events
          with _ | le
        · rw [mainRun, hv] at h
          simp only [hr, hm] at h
          simp at h
        · cases le with
          | cancelled =>
              rw [mainRun, hv] at h
              simp only [hr, hm] at h
              simp at h
              simp [hv, hr, exceptOk, ← h]
          | completed p =>
              rw [mainRun, hv] at h
              simp only [hr, hm] at h
              simp at h
              simp [hv, hr, exceptOk, ← h]

/-- Witness for C4: a cancelled run's exit code matches the amended
formula (here: 0). -/
theorem C4_exit_codes_witness :
    ({ exitCode := 0, printed := [], usedLookupHost := false,
       usedLookupIP := false,
       candidates := [{ ip := "192.0.2.9", isIPv6 := false }],
       selected := [{ ip := "192.0.2.9", isIPv6 := false }],
       cancelled := true } : RunOutcome).exitCode =
      (if exceptOk (validateInput (some { ip := "192.0.2.9", isIPv6 := false })
            (Except.ok [])).1 = false then 1
       else if exceptOk (resolveIPs (some { ip := "192.0.2.9", isIPv6 := false })
            (Except.ok ([] : List Addr))) = false then 1 else 0) :=
  C4_exit_codes (some { ip := "192.0.2.9", isIPv6 := false }) (Except.ok [])
    (Except.ok []) false false
    (fun _ => { ptr := PtrOutcome.ok [],
                meta := HttpOutcome.transportError "x",
                sched := Sched.ptrThenMeta })
    [Ev.cancel] _ rfl

/-- C5: when cancellation fires before the collector's `done` signal
(the select loop's first non-tick event is the context cancellation),
the run prints no per-address block at all — everything collected so far
is discarded — and a fortiori no result is printed twice. -/
theorem C5_cancellation_discards_results (parsed : Option Addr)
    (hostLookup : Except String (List String))
    (ipLookup : Except String (List Addr)) (ipv4 ipv6 : Bool)
    (env : Addr → EnrichEnv) (events : List Ev) (o : RunOutcome)
    (hc : firstSignal events = some Ev.cancel)
    (h : mainRun parsed hostLookup ipLookup ipv4 ipv6 env events = some o) :
    o.printed = [] ∧ ∀ r : Result, o.printed.count r ≤ 1 := by
  have hp := mainRun_printed_nil_of_cancel parsed hostLookup ipLookup
    ipv4 ipv6 env events o hc h
  exact ⟨hp, fun r => by simp [hp]⟩

/-- Witness for C5: a concrete interrupted run prints nothing. -/
theorem C5_cancellation_discards_results_witness :
    ({ exitCode := 0, printed := [], usedLookupHost := false,
       usedLookupIP := false,
       candidates := [{ ip := "198.51.100.2", isIPv6 := false }],
       selected := [{ ip := "198.51.100.2", isIPv6 := false }],
       cancelled := true } : RunOutcome).printed = [] ∧
    ∀ r : Result,
      ({ exitCode := 0, printed := [], usedLookupHost := false,
         usedLookupIP := false,
         candidates := [{ ip := "198.51.100.2", isIPv6 := false }],
         selected := [{ ip := "198.51.100.2", isIPv6 := false }],
         cancelled := true } : RunOutcome).printed.count r ≤ 1 :=
  C5_cancellation_discards_results (some { ip := "198.51.100.2", isIPv6 := false })
    (Except.ok []) (Except.ok []) false false
    (fun _ => { ptr := PtrOutcome.ok [],
                meta := HttpOutcome.transportError "x",
                sched := Sched.ptrThenMeta })
    [Ev.tick, Ev.cancel] _ rfl rfl

/-- C6: an address is selected for enrichment iff it is a candidate and
the filter — as the spec words it — requests its family or requests
neither family explicitly; and a run whose selection is empty is not an
error: it completes with an empty report and exit code 0. -/
theorem C6_filter_semantics :
    (∀ (ipv4 ipv6 : Bool) (ips : List Addr) (a : Addr),
       a ∈ selectAddrs ipv4 ipv6 ips ↔
         a ∈ ips ∧ specFilterSelects ipv4 ipv6 a = true) ∧
    (∀ (parsed : Option Addr) (hostLookup : Except String (List String))
       (ipLookup : Except String (List Addr)) (ipv4 ipv6 : Bool)
       (env : Addr → EnrichEnv) (events : List Ev) (ips : List Addr)
       (uh usedLIP : Bool) (o : RunOutcome),
       validateInput parsed hostLookup = (Except.ok (), uh) →
       resolveIPs parsed ipLookup = Except.ok (ips, usedLIP) →
       selectAddrs ipv4 ipv6 ips = [] →
       firstSignal events = some Ev.done →
       mainRun parsed hostLookup ipLookup ipv4 ipv6 env events = some o →
       o.selected = [] ∧ o.printed = [] ∧ o.exitCode = 0) := by
  constructor
  · intro ipv4 ipv6 ips a
    have hfam : familySelect ipv4 ipv6 a = specFilterSelects ipv4 ipv6 a := by
      cases hv : a.isIPv6 <;> cases ipv4 <;> cases ipv6 <;>
        simp [familySelect, specFilterSelects, hv]
    simp [selectAddrs, List.mem_filter, hfam]
  · intro parsed hostLookup ipLookup ipv4 ipv6 env events ips uh usedLIP o
      hv hr hsel hd h
    rw [mainRun_done_spec parsed hostLookup ipLookup ipv4 ipv6 env events
      ips uh usedLIP hv hr hd] at h
    simp at h
    simp [← h, hsel, launchAll]

/-- Witness for C6: a literal IPv4 target under the IPv6-only filter
selects nothing and the run completes empty with exit code 0. -/
theorem C6_filter_semantics_witness :
    ({ exitCode := 0, printed := [], usedLookupHost := false,
       usedLookupIP := false,
       candidates := [{ ip := "203.0.113.7", isIPv6 := false }],
       selected := [], cancelled := false } : RunOutcome).selected = [] ∧
    ({ exitCode := 0, printed := [], usedLookupHost := false,
       usedLookupIP := false,
       candidates := [{ ip := "203.0.113.7", isIPv6 := false }],
       selected := [], cancelled := false } : RunOutcome).printed = [] ∧
    ({ exitCode := 0, printed := [], usedLookupHost := false,
       usedLookupIP := false,
       candidates := [{ ip := "203.0.113.7", isIPv6 := false }],
       selected := [], cancelled := false } : RunOutcome).exitCode = 0 :=
  C6_filter_semantics.2 (some { ip := "203.0.113.7", isIPv6 := false })
    (Except.ok []) (Except.ok []) false true
    (fun _ => { ptr := PtrOutcome.ok [],
                meta := HttpOutcome.transportError "x",
                sched := Sched.ptrThenMeta })
    [Ev.done] [{ ip := "203.0.113.7", isIPv6 := false }] false false _
    rfl rfl rfl rfl rfl

/-- C7: a target that parses as a literal IP address validates without
calling `net.LookupHost`, and the candidate set is exactly that one
address with `net.LookupIP` never called. -/
theorem C7_literal_ip (a : Addr) (hostLookup : Except String (List String))
    (ipLookup : Except String (List Addr)) (ipv4 ipv6 : Bool)
    (env : Addr → EnrichEnv) (events : List Ev) (o : RunOutcome)
    (h : mainRun (some a) hostLookup ipLookup ipv4 ipv6 env events = some o) :
    validateInput (some a) hostLookup = (Except.ok (), false) ∧
    resolveIPs (some a) ipLookup = Except.ok ([a], false) ∧
    o.candidates = [a] ∧ o.usedLookupHost = false ∧ o.usedLookupIP = false := by
  refine ⟨rfl, rfl, ?_⟩
  rw [mainRun_literal_eq] at h
  rcases hm : mainLoop (launchAll env (selectAddrs ipv4 ipv6 [a])) events
    with _ | le
  · rw [hm] at h; simp at h
  · cases le with
    | cancelled => rw [hm] at h; simp at h; simp [← h]
    | completed p => rw [hm] at h; simp at h; simp [← h]

/-- Witness for C7: a literal IPv6 target yields itself as the only
candidate with both DNS calls skipped. -/
theorem C7_literal_ip_witness :
    validateInput (some { ip := "2001:db8::1", isIPv6 := true })
        (Except.ok []) = (Except.ok (), false) ∧
    resolveIPs (some { ip := "2001:db8::1", isIPv6 := true })
        (Except.ok ([] : List Addr))
      = Except.ok ([{ ip := "2001:db8::1", isIPv6 := true }], false) ∧
    ({ exitCode := 0,
       printed := [lookupIPResult "2001:db8::1" true (PtrOutcome.ok [])
         (HttpOutcome.transportError "x") Sched.ptrThenMeta],
       usedLookupHost := false, usedLookupIP := false,
       candidates := [{ ip := "2001:db8::1", isIPv6 := true }],
       selected := [{ ip := "2001:db8::1", isIPv6 := true }],
       cancelled := false } : RunOutcome).candidates
        = [{ ip := "2001:db8::1", isIPv6 := true }] ∧
    ({ exitCode := 0,
       printed := [lookupIPResult "2001:db8::1" true (PtrOutcome.ok [])
         (HttpOutcome.transportError "x") Sched.ptrThenMeta],
       usedLookupHost := false, usedLookupIP := false,
       candidates := [{ ip := "2001:db8::1", isIPv6 := true }],
       selected := [{ ip := "2001:db8::1", isIPv6 := true }],
       cancelled := false } : RunOutcome).usedLookupHost = false ∧
    ({ exitCode := 0,
       printed := [lookupIPResult "2001:db8::1" true (PtrOutcome.ok [])
         (HttpOutcome.transportError "x") Sched.ptrThenMeta],
       usedLookupHost := false, usedLookupIP := false,
       candidates := [{ ip := "2001:db8::1", isIPv6 := true }],
       selected := [{ ip := "2001:db8::1", isIPv6 := true }],
       cancelled := false } : RunOutcome).usedLookupIP = false :=
  C7_literal_ip { ip := "2001:db8::1", isIPv6 := true } (Except.ok [])
    (Except.ok []) false false
    (fun _ => { ptr := PtrOutcome.ok [],
                meta := HttpOutcome.transportError "x",
                sched := Sched.ptrThenMeta })
    [Ev.done] _ rfl

/-- C8: when the reverse lookup fails and the metadata fetch succeeds,
the enricher's result — under every interleaving — carries the populated
metadata record, an empty PTR set, and exactly the reverse-lookup error
message (so the error mentions only the reverse-lookup failure). -/
theorem C8_reverse_fail_meta_ok (ip : String) (v6 : Bool) (e : String)
    (meta : HttpOutcome) (ipInfo : IPInfo) (s : Sched)
    (hm : getIPInfo meta = Except.ok ipInfo) :
    lookupIPResult ip v6 (PtrOutcome.err e) meta s =
      { IP := ip, PTR := [], info := some ipInfo, IsIPv6 := v6,
        Error := some ("error looking up PTR records: " ++ e) } := by
  cases s <;> simp [lookupIPResult, ptrBody, metaBody, initResult, hm]

/-- Witness for C8: a failed PTR lookup next to a successful metadata
fetch yields metadata plus only the reverse-lookup error. -/
theorem C8_reverse_fail_meta_ok_witness :
    lookupIPResult "8.8.8.8" false (PtrOutcome.err "no such host")
        (HttpOutcome.response 200 (Except.ok
          { ip := "8.8.8.8", hostname := "dns.google", city := "Mountain View",
            region := "California", country := "US", loc := "37.4,-122.0",
            org := "AS15169 Google LLC" }))
        Sched.metaThenPtr =
      { IP := "8.8.8.8", PTR := [],
        info := some
          { ip := "8.8.8.8", hostname := "dns.google", city := "Mountain View",
            region := "California", country := "US", loc := "37.4,-122.0",
            org := "AS15169 Google LLC" },
        IsIPv6 := false,
        Error := some ("error looking up PTR records: " ++ "no such host") } :=
  C8_reverse_fail_meta_ok "8.8.8.8" false "no such host"
    (HttpOutcome.response 200 (Except.ok
      { ip := "8.8.8.8", hostname := "dns.google", city := "Mountain View",
        region := "California", country := "US", loc := "37.4,-122.0",
        org := "AS15169 Google LLC" }))
    { ip := "8.8.8.8", hostname := "dns.google", city := "Mountain View",
      region := "California", country := "US", loc := "37.4,-122.0",
      org := "AS15169 Google LLC" }
    Sched.metaThenPtr rfl

/-- C9 counterexample: with both sub-lookups failing, two interleavings
of the enricher's goroutines produce different results — the composite
error, hence the Result, is not deterministic under scheduling. -/
theorem C9_counterexample :
    lookupIPResult "192.0.2.7" false (PtrOutcome.err "a")
        (HttpOutcome.transportError "b") Sched.ptrThenMeta
      ≠ lookupIPResult "192.0.2.7" false (PtrOutcome.err "a")
        (HttpOutcome.transportError "b") Sched.metaThenPtr := by
  decide

/-- C9 (amended): the enricher's result is independent of the
interleaving of its two goroutines whenever at most one of the two
sub-lookups fails; only the both-fail case is schedule-dependent. -/
theorem C9_deterministic_unless_both_fail (ip : String) (v6 : Bool)
    (ptr : PtrOutcome) (meta : HttpOutcome) (s1 s2 : Sched)
    (h : ptr.isOkB = true ∨ exceptOk (getIPInfo meta) = true) :
    lookupIPResult ip v6 ptr meta s1 = lookupIPResult ip v6 ptr meta s2 := by
  rcases hm : getIPInfo meta with me | mi <;> cases ptr <;>
    cases s1 <;> cases s2 <;>
      simp_all [lookupIPResult, ptrBody, metaBody, initResult,
        PtrOutcome.isOkB, exceptOk]

/-- Witness for C9: with only the reverse lookup failing, two different
interleavings agree. -/
theorem C9_deterministic_unless_both_fail_witness :
    lookupIPResult "198.51.100.9" false (PtrOutcome.err "nope")
        (HttpOutcome.response 200 (Except.ok
          { ip := "198.51.100.9", hostname := "h", city := "c", region := "r",
            country := "cc", loc := "l", org := "o" }))
        Sched.ptrThenMeta
      = lookupIPResult "198.51.100.9" false (PtrOutcome.err "nope")
        (HttpOutcome.response 200 (Except.ok
          { ip := "198.51.100.9", hostname := "h", city := "c", region := "r",
            country := "cc", loc := "l", org := "o" }))
        Sched.metaThenPtr :=
  C9_deterministic_unless_both_fail "198.51.100.9" false (PtrOutcome.err "nope")
    (HttpOutcome.response 200 (Except.ok
      { ip := "198.51.100.9", hostname := "h", city := "c", region := "r",
        country := "cc", loc := "l", org := "o" }))
    Sched.ptrThenMeta Sched.metaThenPtr (Or.inr rfl)

/-- C10: a literal target whose family the filter excludes launches zero
enrichers, prints an empty report, and exits with code 0 rather than an
error. -/
theorem C10_literal_excluded_family (a : Addr)
    (hostLookup : Except String (List String))
    (ipLookup : Except String (List Addr)) (ipv4 ipv6 : Bool)
    (env : Addr → EnrichEnv) (events : List Ev) (o : RunOutcome)
    (hf : familySelect ipv4 ipv6 a = false)
    (hd : firstSignal events = some Ev.done)
    (h : mainRun (some a) hostLookup ipLookup ipv4 ipv6 env events = some o) :
    o.selected = [] ∧ o.printed = [] ∧ o.exitCode = 0 := by
  have hsel : selectAddrs ipv4 ipv6 [a] = [] := by
    simp [selectAddrs, hf]
  rw [mainRun_literal_eq, hsel] at h
  rw [mainLoop_of_firstSignal_done _ hd] at h
  simp at h
  simp [← h, launchAll]

/-- Witness for C10: a literal IPv4 target under the IPv6-only flag
selects nothing, prints nothing, and exits 0. -/
theorem C10_literal_excluded_family_witness :
    ({ exitCode := 0, printed := [], usedLookupHost := false,
       usedLookupIP := false,
       candidates := [{ ip := "192.0.2.44", isIPv6 := false }],
       selected := [], cancelled := false } : RunOutcome).selected = [] ∧
    ({ exitCode := 0, printed := [], usedLookupHost := false,
       usedLookupIP := false,
       candidates := [{ ip := "192.0.2.44", isIPv6 := false }],
       selected := [], cancelled := false } : RunOutcome).printed = [] ∧
    ({ exitCode := 0, printed := [], usedLookupHost := false,
       usedLookupIP := false,
       candidates := [{ ip := "192.0.2.44", isIPv6 := false }],
       selected := [], cancelled := false } : RunOutcome).exitCode = 0 :=
  C10_literal_excluded_family { ip := "192.0.2.44", isIPv6 := false }
    (Except.ok []) (Except.ok []) false true
    (fun _ => { ptr := PtrOutcome.ok [],
                meta := HttpOutcome.transportError "x",
                sched := Sched.ptrThenMeta })
    [Ev.done] _ rfl rfl rfl

end Chk
